import Mathlib

/-!
Shallow embedding of `src/server.js`: an Express server with three POST
handlers (`/api/generate`, `/api/reframe`, `/api/remix`) that each run the
pipeline validate → call Ideogram API → download image bytes → transcode
to PNG with sharp → upload to Cloudinary → respond.

External effects (the Ideogram HTTP call made with axios, the image-bytes
download, the sharp transcode, and the Cloudinary `upload_stream`) are
modelled as oracle functions collected in an `Env`; each oracle either
returns a value or throws a JavaScript error (`Except JsError`).  Every
handler returns the HTTP response it sends together with the ordered list
of external calls it performed, so that claims of the form "this call is
never made" are about the returned trace.
-/

namespace Server

/-- Image bytes (a Node `Buffer`), modelled as a list of byte values. -/
abbrev Bytes := List Nat

/-- A thrown JavaScript error: only its `message` property is observed by
the handlers (`error.message`), and `message` may be `undefined`. -/
structure JsError where
  message : Option String
deriving DecidableEq, Repr

/-- Embeds the JS expression `error.message || fallback`: the fallback is
used when `message` is `undefined` or the empty string (both falsy). -/
def errMessageOr (e : JsError) (fallback : String) : String :=
  match e.message with
  | none => fallback
  | some s => if s = "" then fallback else s

/-- JS truthiness of an optional string field of a request body:
`undefined` and `""` are falsy, every other string is truthy. -/
def truthy : Option String → Bool
  | none => false
  | some s => s ≠ ""

/-- The `data` object of an Ideogram API response, as read by the
handlers: `data.images` (generate, remix) and `data.image` (reframe). -/
structure IdeoData where
  images : Option (List String) := none
  image : Option String := none
deriving DecidableEq, Repr

/-- An axios response from the Ideogram API; `data` may be absent
(the handlers guard with `!ideogramResponse.data`). -/
structure IdeoResponse where
  data : Option IdeoData := none
deriving DecidableEq, Repr

/-- The three Ideogram API operations the server calls. -/
inductive IdeoOp
  | generate
  | reframe
  | remix
deriving DecidableEq, Repr

/-- The JSON payload the server posts to the Ideogram API. -/
structure IdeoPayload where
  image_url : Option String := none
  prompt : Option String := none
  aspect_ratio : String
deriving DecidableEq, Repr

/-- The fields of a Cloudinary upload result read by the handlers. -/
structure UploadResult where
  secure_url : String
  public_id : String
deriving DecidableEq, Repr

/-- Options passed to `cloudinary.uploader.upload_stream`: the `folder`
namespace tag, and `format` (present and `"png"` on the three final
uploads, absent on the remix temp upload). -/
structure UploadOptions where
  folder : String
  format : Option String := none
deriving DecidableEq, Repr

/-- Oracles for the external effects of one request. -/
structure Env where
  ideogram : IdeoOp → IdeoPayload → Except JsError IdeoResponse
  fetchImage : String → Except JsError Bytes
  sharpPng : Bytes → Except JsError Bytes
  uploadStream : UploadOptions → Bytes → Except JsError UploadResult

/-- One external call performed by a handler, in order. -/
inductive CallEvent
  | ideogram (op : IdeoOp) (payload : IdeoPayload)
  | fetchImage (url : String)
  | sharpPng (input : Bytes)
  | uploadStream (opts : UploadOptions) (data : Bytes)
deriving DecidableEq, Repr

/-- True on the events that are calls to an external client: the
generation service, the image download, or the media store (the sharp
transcode is local computation). -/
def isExternalClientCall : CallEvent → Bool
  | .ideogram _ _ => true
  | .fetchImage _ => true
  | .sharpPng _ => false
  | .uploadStream _ _ => true

/-- True on image-bytes download events. -/
def isFetchCall : CallEvent → Bool
  | .fetchImage _ => true
  | _ => false

/-- True on media-store upload events. -/
def isStoreCall : CallEvent → Bool
  | .uploadStream _ _ => true
  | _ => false

/-- True on media-store upload events targeting the given folder. -/
def isStoreCallTo (folder : String) : CallEvent → Bool
  | .uploadStream opts _ => opts.folder = folder
  | _ => false

/-- The two response-body shapes the handlers produce: `{error}` and
`{success, original_url, cloudinary_url, public_id}`. -/
inductive ResBody
  | errJson (error : String)
  | okJson (success : Bool) (original_url : String)
      (cloudinary_url : String) (public_id : String)
deriving DecidableEq, Repr

/-- An HTTP response: status code and JSON body. -/
structure HttpResponse where
  status : Nat
  body : ResBody
deriving DecidableEq, Repr

/-- Body of a POST `/api/generate` request. -/
structure GenerateBody where
  prompt : Option String := none
  aspect_ratio : Option String := none
deriving DecidableEq, Repr

/-- Body of a POST `/api/reframe` request. -/
structure ReframeBody where
  image_url : Option String := none
  aspect_ratio : Option String := none
deriving DecidableEq, Repr

/-- A POST `/api/remix` request: an optional multipart file (`req.file`,
whose `buffer` multer keeps in memory) and the body fields. -/
structure RemixRequest where
  file : Option Bytes := none
  image_url : Option String := none
  prompt : Option String := none
  aspect_ratio : Option String := none
deriving DecidableEq, Repr

/-- Embeds the JS guard
`!resp.data || !resp.data.images || resp.data.images.length === 0`
used by the generate and remix handlers. -/
def noImages (resp : IdeoResponse) : Bool :=
  match resp.data with
  | none => true
  | some d =>
    match d.images with
    | none => true
    | some [] => true
    | some (_ :: _) => false

/-- Embeds the JS guard `!resp.data || !resp.data.image` used by the
reframe handler (`""` is falsy). -/
def noImage (resp : IdeoResponse) : Bool :=
  match resp.data with
  | none => true
  | some d =>
    match d.image with
    | none => true
    | some s => s = ""

/-- Handler of POST `/api/generate` (src/server.js lines 34-89). -/
def generateHandler (env : Env) (req : GenerateBody) :
    HttpResponse × List CallEvent :=
  if truthy req.prompt = false then
    (⟨400, .errJson "Prompt is required"⟩, [])
  else
    let payload : IdeoPayload :=
      { prompt := req.prompt, aspect_ratio := req.aspect_ratio.getD "1:1" }
    let ev1 := [CallEvent.ideogram .generate payload]
    match env.ideogram .generate payload with
    | .error e =>
      (⟨500, .errJson (errMessageOr e "Failed to process image")⟩, ev1)
    | .ok resp =>
      if noImages resp then
        (⟨500, .errJson "Failed to generate image"⟩, ev1)
      else
        let imageUrl := (((resp.data.getD {}).images).getD []).headD ""
        let ev2 := ev1 ++ [CallEvent.fetchImage imageUrl]
        match env.fetchImage imageUrl with
        | .error e =>
          (⟨500, .errJson (errMessageOr e "Failed to process image")⟩, ev2)
        | .ok bytes =>
          let ev3 := ev2 ++ [CallEvent.sharpPng bytes]
          match env.sharpPng bytes with
          | .error e =>
            (⟨500, .errJson (errMessageOr e "Failed to process image")⟩, ev3)
          | .ok pngBuffer =>
            let opts : UploadOptions :=
              { folder := "ideogram-images", format := some "png" }
            let ev4 := ev3 ++ [CallEvent.uploadStream opts pngBuffer]
            match env.uploadStream opts pngBuffer with
            | .error e =>
              (⟨500, .errJson (errMessageOr e "Failed to process image")⟩, ev4)
            | .ok uploadResult =>
              (⟨200, .okJson true imageUrl uploadResult.secure_url
                  uploadResult.public_id⟩, ev4)

/-- Handler of POST `/api/reframe` (src/server.js lines 92-147). -/
def reframeHandler (env : Env) (req : ReframeBody) :
    HttpResponse × List CallEvent :=
  if truthy req.image_url = false then
    (⟨400, .errJson "Image URL is required"⟩, [])
  else
    let payload : IdeoPayload :=
      { image_url := req.image_url,
        aspect_ratio := req.aspect_ratio.getD "1:1" }
    let ev1 := [CallEvent.ideogram .reframe payload]
    match env.ideogram .reframe payload with
    | .error e =>
      (⟨500, .errJson (errMessageOr e "Failed to reframe image")⟩, ev1)
    | .ok resp =>
      if noImage resp then
        (⟨500, .errJson "Failed to reframe image"⟩, ev1)
      else
        let reframedImageUrl := ((resp.data.getD {}).image).getD ""
        let ev2 := ev1 ++ [CallEvent.fetchImage reframedImageUrl]
        match env.fetchImage reframedImageUrl with
        | .error e =>
          (⟨500, .errJson (errMessageOr e "Failed to reframe image")⟩, ev2)
        | .ok bytes =>
          let ev3 := ev2 ++ [CallEvent.sharpPng bytes]
          match env.sharpPng bytes with
          | .error e =>
            (⟨500, .errJson (errMessageOr e "Failed to reframe image")⟩, ev3)
          | .ok pngBuffer =>
            let opts : UploadOptions :=
              { folder := "ideogram-reframed", format := some "png" }
            let ev4 := ev3 ++ [CallEvent.uploadStream opts pngBuffer]
            match env.uploadStream opts pngBuffer with
            | .error e =>
              (⟨500, .errJson (errMessageOr e "Failed to reframe image")⟩, ev4)
            | .ok uploadResult =>
              (⟨200, .okJson true reframedImageUrl uploadResult.secure_url
                  uploadResult.public_id⟩, ev4)

/-- The remix pipeline from the point where `imageUrl` has been resolved
(src/server.js lines 173-222): prompt check, Ideogram remix call,
download, transcode, final upload, response. -/
def remixPipeline (env : Env) (req : RemixRequest) (imageUrl : String)
    (ev0 : List CallEvent) : HttpResponse × List CallEvent :=
  if truthy req.prompt = false then
    (⟨400, .errJson "Prompt is required"⟩, ev0)
  else
    let payload : IdeoPayload :=
      { image_url := some imageUrl, prompt := req.prompt,
        aspect_ratio := req.aspect_ratio.getD "1:1" }
    let ev1 := ev0 ++ [CallEvent.ideogram .remix payload]
    match env.ideogram .remix payload with
    | .error e =>
      (⟨500, .errJson (errMessageOr e "Failed to remix image")⟩, ev1)
    | .ok resp =>
      if noImages resp then
        (⟨500, .errJson "Failed to remix image"⟩, ev1)
      else
        let remixedImageUrl := (((resp.data.getD {}).images).getD []).headD ""
        let ev2 := ev1 ++ [CallEvent.fetchImage remixedImageUrl]
        match env.fetchImage remixedImageUrl with
        | .error e =>
          (⟨500, .errJson (errMessageOr e "Failed to remix image")⟩, ev2)
        | .ok bytes =>
          let ev3 := ev2 ++ [CallEvent.sharpPng bytes]
          match env.sharpPng bytes with
          | .error e =>
            (⟨500, .errJson (errMessageOr e "Failed to remix image")⟩, ev3)
          | .ok pngBuffer =>
            let opts : UploadOptions :=
              { folder := "ideogram-remixed", format := some "png" }
            let ev4 := ev3 ++ [CallEvent.uploadStream opts pngBuffer]
            match env.uploadStream opts pngBuffer with
            | .error e =>
              (⟨500, .errJson (errMessageOr e "Failed to remix image")⟩, ev4)
            | .ok uploadResult =>
              (⟨200, .okJson true remixedImageUrl uploadResult.secure_url
                  uploadResult.public_id⟩, ev4)

/-- Handler of POST `/api/remix` (src/server.js lines 150-227): resolve
the image source (a multipart file takes precedence and is first uploaded
to Cloudinary folder `temp-uploads` to obtain a durable URL; otherwise
`req.body.image_url` is used if truthy; otherwise 400), then run the
remix pipeline. -/
def remixHandler (env : Env) (req : RemixRequest) :
    HttpResponse × List CallEvent :=
  match req.file with
  | some buf =>
    let tempOpts : UploadOptions := { folder := "temp-uploads" }
    let ev0 := [CallEvent.uploadStream tempOpts buf]
    match env.uploadStream tempOpts buf with
    | .error e =>
      (⟨500, .errJson (errMessageOr e "Failed to remix image")⟩, ev0)
    | .ok tempUpload => remixPipeline env req tempUpload.secure_url ev0
  | none =>
    if truthy req.image_url then
      remixPipeline env req (req.image_url.getD "") []
    else
      (⟨400, .errJson "Image (file or URL) is required"⟩, [])

/-! ### Stub environments used on concrete runs -/

/-- Stub environment on which every external call succeeds: the
generation client returns one list of image URLs (and one reframed image
reference), the download and the transcode succeed, and the store returns
a fixed `secure_url`/`public_id`. -/
def envHappy : Env where
  ideogram := fun _ _ =>
    .ok ⟨some { images := some ["https://ideogram.ai/img0.png",
                                "https://ideogram.ai/img1.png"],
                image := some "https://ideogram.ai/reframed.png" }⟩
  fetchImage := fun _ => .ok [137, 80, 78, 71]
  sharpPng := fun bytes => .ok (0 :: bytes)
  uploadStream := fun _ _ => .ok ⟨"https://cdn/x.png", "ideogram-images/x"⟩

/-- C7: a POST `/api/reframe` request with an empty JSON body (no
`image_url`, no `aspect_ratio`) gets HTTP 400 with body exactly
`{error: "Image URL is required"}`, whatever the external world does. -/
theorem c7_reframe_empty_body_400 :
    ∀ env : Env, reframeHandler env {} =
      (⟨400, .errJson "Image URL is required"⟩, []) :=
  fun _ => rfl

/-- C9: in the remix handler the image-source check precedes the prompt
check: a remix request with no file, no `image_url` and no prompt gets
the missing-image 400 body, which differs from the missing-prompt body. -/
theorem c9_remix_source_check_first :
    (∀ env : Env, remixHandler env {} =
      (⟨400, .errJson "Image (file or URL) is required"⟩, [])) ∧
    "Image (file or URL) is required" ≠ "Prompt is required" :=
  ⟨fun _ => rfl, by decide⟩

/-- C5: in the remix handler an uploaded file takes precedence over
`image_url` — with a file present the handler's whole behaviour
(response and call trace) is independent of `image_url` — and a request
with neither a file nor an `image_url` gets HTTP 400. -/
theorem c5_remix_file_precedence_and_400 :
    (∀ (env : Env) (buf : Bytes) (iu p ar : Option String),
      remixHandler env ⟨some buf, iu, p, ar⟩ =
        remixHandler env ⟨some buf, none, p, ar⟩) ∧
    (∀ (env : Env) (req : RemixRequest), req.file = none →
      req.image_url = none →
      (remixHandler env req).1 =
        ⟨400, .errJson "Image (file or URL) is required"⟩) := by
  constructor
  · intro env buf iu p ar
    rfl
  · intro env req hfile hurl
    simp [remixHandler, hfile, hurl, truthy]

/-- C5 witness: precedence and 400 observed on concrete inputs. -/
theorem c5_witness :
    remixHandler envHappy ⟨some [1], some "https://a/b.png", some "p", none⟩ =
      remixHandler envHappy ⟨some [1], none, some "p", none⟩ ∧
    (remixHandler envHappy { image_url := none }).1 =
      ⟨400, .errJson "Image (file or URL) is required"⟩ :=
  ⟨c5_remix_file_precedence_and_400.1 envHappy [1] (some "https://a/b.png")
      (some "p") none,
   c5_remix_file_precedence_and_400.2 envHappy { image_url := none } rfl rfl⟩

/-- C1 counterexample: a remix request supplying a file but missing the
required prompt gets HTTP 400, yet an external-client call (the temp
store upload) has been made — so "400 with no external call" is false. -/
theorem c1_counterexample :
    (remixHandler envHappy { file := some [1, 2] }).1.status = 400 ∧
    (remixHandler envHappy { file := some [1, 2] }).2.any
        isExternalClientCall = true := by
  decide

/-- C1 amended: a generate or reframe request missing its required field,
and a remix request whose image source is missing or whose prompt is
missing while no file is supplied, gets HTTP 400 with no external call;
a remix request with a file but no prompt gets HTTP 400 only after the
temp store upload has been made (and succeeded). -/
theorem c1_missing_field_400 :
    (∀ (env : Env) (req : GenerateBody), truthy req.prompt = false →
      generateHandler env req = (⟨400, .errJson "Prompt is required"⟩, [])) ∧
    (∀ (env : Env) (req : ReframeBody), truthy req.image_url = false →
      reframeHandler env req =
        (⟨400, .errJson "Image URL is required"⟩, [])) ∧
    (∀ (env : Env) (req : RemixRequest), req.file = none →
      truthy req.image_url = false →
      remixHandler env req =
        (⟨400, .errJson "Image (file or URL) is required"⟩, [])) ∧
    (∀ (env : Env) (req : RemixRequest), req.file = none →
      truthy req.image_url = true → truthy req.prompt = false →
      remixHandler env req = (⟨400, .errJson "Prompt is required"⟩, [])) ∧
    (∀ (env : Env) (req : RemixRequest) (buf : Bytes) (up : UploadResult),
      req.file = some buf → truthy req.prompt = false →
      env.uploadStream ⟨"temp-uploads", none⟩ buf = .ok up →
      remixHandler env req = (⟨400, .errJson "Prompt is required"⟩,
        [.uploadStream ⟨"temp-uploads", none⟩ buf])) := by
  refine ⟨?_, ?_, ?_, ?_, ?_⟩
  · intro env req h
    simp [generateHandler, h]
  · intro env req h
    simp [reframeHandler, h]
  · intro env req hfile hurl
    simp [remixHandler, hfile, hurl]
  · intro env req hfile hurl hp
    simp [remixHandler, hfile, hurl, remixPipeline, hp]
  · intro env req buf up hfile hp hup
    simp [remixHandler, hfile, hup, remixPipeline, hp]

/-- C1 witness: the amended statement observed on concrete inputs,
including the remix-with-file case where the temp upload precedes the
400. -/
theorem c1_witness :
    generateHandler envHappy {} = (⟨400, .errJson "Prompt is required"⟩, []) ∧
    remixHandler envHappy { file := some [7] } =
      (⟨400, .errJson "Prompt is required"⟩,
       [.uploadStream ⟨"temp-uploads", none⟩ [7]]) :=
  ⟨c1_missing_field_400.1 envHappy {} rfl,
   c1_missing_field_400.2.2.2.2 envHappy { file := some [7] } [7]
     ⟨"https://cdn/x.png", "ideogram-images/x"⟩ rfl rfl rfl⟩

/-- C6 counterexample: on a remix run with a file, the pre-step store
upload goes to folder "temp-uploads", and no store call in the whole
trace targets the folder "temp" — so the claimed namespace is false. -/
theorem c6_counterexample :
    (remixHandler envHappy { file := some [1], prompt := some "p" }).2.head? =
      some (.uploadStream ⟨"temp-uploads", none⟩ [1]) ∧
    (remixHandler envHappy
        { file := some [1], prompt := some "p" }).2.all
        (fun ev => !(isStoreCallTo "temp" ev)) = true ∧
    "temp-uploads" ≠ "temp" := by
  refine ⟨rfl, ?_, by decide⟩
  decide

/-- C6 amended: every store call a generate run makes goes to folder
"ideogram-images", every store call a reframe run makes goes to
"ideogram-reframed", every store call a remix run makes goes to
"temp-uploads" or "ideogram-remixed"; the three final folders are
pairwise distinct; and when a file blob is supplied to remix, the very
first external call of the run is the upload of that blob to
"temp-uploads" — it precedes the generation-client call. -/
theorem c6_store_namespaces :
    (∀ (env : Env) (req : GenerateBody) (ev : CallEvent),
      ev ∈ (generateHandler env req).2 → isStoreCall ev = true →
      isStoreCallTo "ideogram-images" ev = true) ∧
    (∀ (env : Env) (req : ReframeBody) (ev : CallEvent),
      ev ∈ (reframeHandler env req).2 → isStoreCall ev = true →
      isStoreCallTo "ideogram-reframed" ev = true) ∧
    (∀ (env : Env) (req : RemixRequest) (ev : CallEvent),
      ev ∈ (remixHandler env req).2 → isStoreCall ev = true →
      (isStoreCallTo "temp-uploads" ev = true ∨
       isStoreCallTo "ideogram-remixed" ev = true)) ∧
    ("ideogram-images" ≠ "ideogram-reframed" ∧
     "ideogram-images" ≠ "ideogram-remixed" ∧
     "ideogram-reframed" ≠ "ideogram-remixed") ∧
    (∀ (env : Env) (req : RemixRequest) (buf : Bytes),
      req.file = some buf →
      (remixHandler env req).2.head? =
        some (.uploadStream ⟨"temp-uploads", none⟩ buf)) := by
  refine ⟨?_, ?_, ?_, by decide, ?_⟩
  · intro env req ev hmem hstore
    cases ev with
    | ideogram op p => simp [isStoreCall] at hstore
    | fetchImage u => simp [isStoreCall] at hstore
    | sharpPng b => simp [isStoreCall] at hstore
    | uploadStream opts data =>
      unfold generateHandler at hmem
      repeat' split at hmem
      all_goals (try simp_all [isStoreCallTo])
      all_goals aesop
  · intro env req ev hmem hstore
    cases ev with
    | ideogram op p => simp [isStoreCall] at hstore
    | fetchImage u => simp [isStoreCall] at hstore
    | sharpPng b => simp [isStoreCall] at hstore
    | uploadStream opts data =>
      unfold reframeHandler at hmem
      repeat' split at hmem
      all_goals (try simp_all [isStoreCallTo])
      all_goals aesop
  · intro env req ev hmem hstore
    cases ev with
    | ideogram op p => simp [isStoreCall] at hstore
    | fetchImage u => simp [isStoreCall] at hstore
    | sharpPng b => simp [isStoreCall] at hstore
    | uploadStream opts data =>
      unfold remixHandler remixPipeline at hmem
      repeat' split at hmem
      all_goals (try simp_all [isStoreCallTo])
      all_goals aesop
  · intro env req buf hfile
    have hred : remixHandler env req =
        match env.uploadStream ⟨"temp-uploads", none⟩ buf with
        | .error e =>
          (⟨500, .errJson (errMessageOr e "Failed to remix image")⟩,
           [.uploadStream ⟨"temp-uploads", none⟩ buf])
        | .ok tempUpload => remixPipeline env req tempUpload.secure_url
            [.uploadStream ⟨"temp-uploads", none⟩ buf] := by
      unfold remixHandler
      rw [hfile]
    rw [hred]
    split
    · rfl
    · unfold remixPipeline
      repeat' split <;> (try rfl) <;> (try simp)

/-- C6 witness: on a concrete successful generate run, the store call in
the trace targets "ideogram-images", and on a concrete remix run with a
file the first call is the temp upload to "temp-uploads". -/
theorem c6_witness :
    isStoreCallTo "ideogram-images"
        (.uploadStream ⟨"ideogram-images", some "png"⟩
          [0, 137, 80, 78, 71]) = true ∧
    (remixHandler envHappy { file := some [9], prompt := some "p" }).2.head? =
      some (.uploadStream ⟨"temp-uploads", none⟩ [9]) :=
  ⟨c6_store_namespaces.1 envHappy { prompt := some "p" }
      (.uploadStream ⟨"ideogram-images", some "png"⟩ [0, 137, 80, 78, 71])
      (by decide) (by decide),
   c6_store_namespaces.2.2.2.2 envHappy
      { file := some [9], prompt := some "p" } [9] rfl⟩

/-- C2: on every successful run of any endpoint the response is 200 with
`success = true`, `original_url` equal to the URL the generation client
returned (first element of `images` for generate and remix, the `image`
reference for reframe), and `cloudinary_url`/`public_id` equal to the
`secure_url`/`public_id` the store returned — nothing fabricated or
swapped.  The four conjuncts cover generate, reframe, remix via
`image_url`, and remix via an uploaded file. -/
theorem c2_success_fields :
    (∀ (env : Env) (req : GenerateBody) (d : IdeoData) (u : String)
        (rest : List String) (bytes png : Bytes) (up : UploadResult),
      truthy req.prompt = true →
      env.ideogram .generate
          ⟨none, req.prompt, req.aspect_ratio.getD "1:1"⟩ = .ok ⟨some d⟩ →
      d.images = some (u :: rest) →
      env.fetchImage u = .ok bytes →
      env.sharpPng bytes = .ok png →
      env.uploadStream ⟨"ideogram-images", some "png"⟩ png = .ok up →
      (generateHandler env req).1 =
        ⟨200, .okJson true u up.secure_url up.public_id⟩) ∧
    (∀ (env : Env) (req : ReframeBody) (d : IdeoData) (u : String)
        (bytes png : Bytes) (up : UploadResult),
      truthy req.image_url = true →
      env.ideogram .reframe
          ⟨req.image_url, none, req.aspect_ratio.getD "1:1"⟩ = .ok ⟨some d⟩ →
      d.image = some u → u ≠ "" →
      env.fetchImage u = .ok bytes →
      env.sharpPng bytes = .ok png →
      env.uploadStream ⟨"ideogram-reframed", some "png"⟩ png = .ok up →
      (reframeHandler env req).1 =
        ⟨200, .okJson true u up.secure_url up.public_id⟩) ∧
    (∀ (env : Env) (req : RemixRequest) (d : IdeoData) (u : String)
        (rest : List String) (bytes png : Bytes) (up : UploadResult),
      req.file = none → truthy req.image_url = true →
      truthy req.prompt = true →
      env.ideogram .remix
          ⟨some (req.image_url.getD ""), req.prompt,
           req.aspect_ratio.getD "1:1"⟩ = .ok ⟨some d⟩ →
      d.images = some (u :: rest) →
      env.fetchImage u = .ok bytes →
      env.sharpPng bytes = .ok png →
      env.uploadStream ⟨"ideogram-remixed", some "png"⟩ png = .ok up →
      (remixHandler env req).1 =
        ⟨200, .okJson true u up.secure_url up.public_id⟩) ∧
    (∀ (env : Env) (req : RemixRequest) (buf : Bytes) (tmp : UploadResult)
        (d : IdeoData) (u : String) (rest : List String) (bytes png : Bytes)
        (up : UploadResult),
      req.file = some buf →
      env.uploadStream ⟨"temp-uploads", none⟩ buf = .ok tmp →
      truthy req.prompt = true →
      env.ideogram .remix
          ⟨some tmp.secure_url, req.prompt,
           req.aspect_ratio.getD "1:1"⟩ = .ok ⟨some d⟩ →
      d.images = some (u :: rest) →
      env.fetchImage u = .ok bytes →
      env.sharpPng bytes = .ok png →
      env.uploadStream ⟨"ideogram-remixed", some "png"⟩ png = .ok up →
      (remixHandler env req).1 =
        ⟨200, .okJson true u up.secure_url up.public_id⟩) := by
  refine ⟨?_, ?_, ?_, ?_⟩
  · intro env req d u rest bytes png up hp hideo himg hfetch hsharp hupload
    simp [generateHandler, hp, hideo, himg, hfetch, hsharp, hupload, noImages]
  · intro env req d u bytes png up hiu hideo himg hne hfetch hsharp hupload
    simp [reframeHandler, hiu, hideo, himg, hne, hfetch, hsharp, hupload,
      noImage]
  · intro env req d u rest bytes png up hfile hiu hp hideo himg hfetch hsharp
      hupload
    simp [remixHandler, remixPipeline, hfile, hiu, hp, hideo, himg, hfetch,
      hsharp, hupload, noImages]
  · intro env req buf tmp d u rest bytes png up hfile htmp hp hideo himg
      hfetch hsharp hupload
    simp [remixHandler, remixPipeline, hfile, htmp, hp, hideo, himg, hfetch,
      hsharp, hupload, noImages]

/-- C2 witness: the end-to-end generate scenario on the all-success stub
environment, observed with every field in place. -/
theorem c2_witness :
    (generateHandler envHappy
        { prompt := some "a red fox", aspect_ratio := some "1:1" }).1 =
      ⟨200, .okJson true "https://ideogram.ai/img0.png" "https://cdn/x.png"
        "ideogram-images/x"⟩ :=
  c2_success_fields.1 envHappy
    { prompt := some "a red fox", aspect_ratio := some "1:1" }
    { images := some ["https://ideogram.ai/img0.png",
                      "https://ideogram.ai/img1.png"],
      image := some "https://ideogram.ai/reframed.png" }
    "https://ideogram.ai/img0.png" ["https://ideogram.ai/img1.png"]
    [137, 80, 78, 71] (0 :: [137, 80, 78, 71])
    ⟨"https://cdn/x.png", "ideogram-images/x"⟩
    rfl rfl rfl rfl rfl rfl

/-- C3: when the generation client's response carries zero images
(generate, remix) or no image reference (reframe), the handler answers
500 with the operation's fixed message and the trace holds no
image-bytes fetch and no store upload after that point (for remix with a
file, the trace is exactly the temp upload followed by the generation
call, so nothing at all follows the generation call). -/
theorem c3_empty_generation_500 :
    (∀ (env : Env) (req : GenerateBody) (resp : IdeoResponse),
      truthy req.prompt = true →
      env.ideogram .generate
          ⟨none, req.prompt, req.aspect_ratio.getD "1:1"⟩ = .ok resp →
      noImages resp = true →
      (generateHandler env req).1 =
          ⟨500, .errJson "Failed to generate image"⟩ ∧
        ∀ ev ∈ (generateHandler env req).2,
          isFetchCall ev = false ∧ isStoreCall ev = false) ∧
    (∀ (env : Env) (req : ReframeBody) (resp : IdeoResponse),
      truthy req.image_url = true →
      env.ideogram .reframe
          ⟨req.image_url, none, req.aspect_ratio.getD "1:1"⟩ = .ok resp →
      noImage resp = true →
      (reframeHandler env req).1 =
          ⟨500, .errJson "Failed to reframe image"⟩ ∧
        ∀ ev ∈ (reframeHandler env req).2,
          isFetchCall ev = false ∧ isStoreCall ev = false) ∧
    (∀ (env : Env) (req : RemixRequest) (resp : IdeoResponse),
      req.file = none → truthy req.image_url = true →
      truthy req.prompt = true →
      env.ideogram .remix
          ⟨some (req.image_url.getD ""), req.prompt,
           req.aspect_ratio.getD "1:1"⟩ = .ok resp →
      noImages resp = true →
      (remixHandler env req).1 = ⟨500, .errJson "Failed to remix image"⟩ ∧
        ∀ ev ∈ (remixHandler env req).2,
          isFetchCall ev = false ∧ isStoreCall ev = false) ∧
    (∀ (env : Env) (req : RemixRequest) (buf : Bytes) (tmp : UploadResult)
        (resp : IdeoResponse),
      req.file = some buf →
      env.uploadStream ⟨"temp-uploads", none⟩ buf = .ok tmp →
      truthy req.prompt = true →
      env.ideogram .remix
          ⟨some tmp.secure_url, req.prompt,
           req.aspect_ratio.getD "1:1"⟩ = .ok resp →
      noImages resp = true →
      remixHandler env req = (⟨500, .errJson "Failed to remix image"⟩,
        [.uploadStream ⟨"temp-uploads", none⟩ buf,
         .ideogram .remix ⟨some tmp.secure_url, req.prompt,
           req.aspect_ratio.getD "1:1"⟩])) := by
  refine ⟨?_, ?_, ?_, ?_⟩
  · intro env req resp hp hideo hno
    simp [generateHandler, hp, hideo, hno, isFetchCall, isStoreCall]
  · intro env req resp hiu hideo hno
    simp [reframeHandler, hiu, hideo, hno, isFetchCall, isStoreCall]
  · intro env req resp hfile hiu hp hideo hno
    simp [remixHandler, remixPipeline, hfile, hiu, hp, hideo, hno,
      isFetchCall, isStoreCall]
  · intro env req buf tmp resp hfile htmp hp hideo hno
    simp [remixHandler, remixPipeline, hfile, htmp, hp, hideo, hno]

/-- C3 witness: the empty-images 500 observed on a concrete generate run
whose stub generation client returns an empty image list. -/
theorem c3_witness :
    (generateHandler
        { envHappy with ideogram := fun _ _ => .ok ⟨some { images := some [] }⟩ }
        { prompt := some "a red fox" }).1 =
      ⟨500, .errJson "Failed to generate image"⟩ :=
  (c3_empty_generation_500.1
    { envHappy with ideogram := fun _ _ => .ok ⟨some { images := some [] }⟩ }
    { prompt := some "a red fox" } ⟨some { images := some [] }⟩
    rfl rfl rfl).1

/-- C4: when the sharp transcode of the fetched bytes fails, the handler
answers 500 and the final store upload of that operation is never made
(for generate and reframe no store call occurs at all; for remix no
store call targets "ideogram-remixed", whichever way the image source
was supplied). -/
theorem c4_transcode_failure_500 :
    (∀ (env : Env) (req : GenerateBody) (d : IdeoData) (u : String)
        (rest : List String) (bytes : Bytes) (e : JsError),
      truthy req.prompt = true →
      env.ideogram .generate
          ⟨none, req.prompt, req.aspect_ratio.getD "1:1"⟩ = .ok ⟨some d⟩ →
      d.images = some (u :: rest) →
      env.fetchImage u = .ok bytes →
      env.sharpPng bytes = .error e →
      (generateHandler env req).1.status = 500 ∧
        ∀ ev ∈ (generateHandler env req).2, isStoreCall ev = false) ∧
    (∀ (env : Env) (req : ReframeBody) (d : IdeoData) (u : String)
        (bytes : Bytes) (e : JsError),
      truthy req.image_url = true →
      env.ideogram .reframe
          ⟨req.image_url, none, req.aspect_ratio.getD "1:1"⟩ = .ok ⟨some d⟩ →
      d.image = some u → u ≠ "" →
      env.fetchImage u = .ok bytes →
      env.sharpPng bytes = .error e →
      (reframeHandler env req).1.status = 500 ∧
        ∀ ev ∈ (reframeHandler env req).2, isStoreCall ev = false) ∧
    (∀ (env : Env) (req : RemixRequest) (d : IdeoData) (u : String)
        (rest : List String) (bytes : Bytes) (e : JsError),
      req.file = none → truthy req.image_url = true →
      truthy req.prompt = true →
      env.ideogram .remix
          ⟨some (req.image_url.getD ""), req.prompt,
           req.aspect_ratio.getD "1:1"⟩ = .ok ⟨some d⟩ →
      d.images = some (u :: rest) →
      env.fetchImage u = .ok bytes →
      env.sharpPng bytes = .error e →
      (remixHandler env req).1.status = 500 ∧
        ∀ ev ∈ (remixHandler env req).2, isStoreCall ev = false) ∧
    (∀ (env : Env) (req : RemixRequest) (buf : Bytes) (tmp : UploadResult)
        (d : IdeoData) (u : String) (rest : List String) (bytes : Bytes)
        (e : JsError),
      req.file = some buf →
      env.uploadStream ⟨"temp-uploads", none⟩ buf = .ok tmp →
      truthy req.prompt = true →
      env.ideogram .remix
          ⟨some tmp.secure_url, req.prompt,
           req.aspect_ratio.getD "1:1"⟩ = .ok ⟨some d⟩ →
      d.images = some (u :: rest) →
      env.fetchImage u = .ok bytes →
      env.sharpPng bytes = .error e →
      (remixHandler env req).1.status = 500 ∧
        ∀ ev ∈ (remixHandler env req).2,
          isStoreCallTo "ideogram-remixed" ev = false) := by
  refine ⟨?_, ?_, ?_, ?_⟩
  · intro env req d u rest bytes e hp hideo himg hfetch hsharp
    simp [generateHandler, hp, hideo, himg, hfetch, hsharp, noImages,
      isStoreCall]
  · intro env req d u bytes e hiu hideo himg hne hfetch hsharp
    simp [reframeHandler, hiu, hideo, himg, hne, hfetch, hsharp, noImage,
      isStoreCall]
  · intro env req d u rest bytes e hfile hiu hp hideo himg hfetch hsharp
    simp [remixHandler, remixPipeline, hfile, hiu, hp, hideo, himg, hfetch,
      hsharp, noImages, isStoreCall]
  · intro env req buf tmp d u rest bytes e hfile htmp hp hideo himg hfetch
      hsharp
    simp [remixHandler, remixPipeline, hfile, htmp, hp, hideo, himg, hfetch,
      hsharp, noImages, isStoreCallTo]

/-- C4 witness: a concrete generate run whose transcode throws gets a 500
and makes no store call. -/
theorem c4_witness :
    (generateHandler
        { envHappy with sharpPng := fun _ => .error ⟨some "bad image data"⟩ }
        { prompt := some "a red fox" }).1.status = 500 :=
  (c4_transcode_failure_500.1
    { envHappy with sharpPng := fun _ => .error ⟨some "bad image data"⟩ }
    { prompt := some "a red fox" }
    { images := some ["https://ideogram.ai/img0.png",
                      "https://ideogram.ai/img1.png"],
      image := some "https://ideogram.ai/reframed.png" }
    "https://ideogram.ai/img0.png" ["https://ideogram.ai/img1.png"]
    [137, 80, 78, 71] ⟨some "bad image data"⟩
    rfl rfl rfl rfl rfl).1

/-- Helper: the JS fallback expression never yields the empty string when
the fallback itself is non-empty. -/
theorem errMessageOr_ne_empty (e : JsError) (fb : String) (h : fb ≠ "") :
    errMessageOr e fb ≠ "" := by
  unfold errMessageOr
  cases e.message with
  | none => exact h
  | some s =>
    by_cases hs : s = "" <;> simp [hs, h]

/-- Helper predicate for the catch-path analysis: a response that, when
its status is 500, carries a non-empty error string. -/
def errNonempty500 (r : HttpResponse) : Prop :=
  r.status = 500 → ∃ s, r.body = .errJson s ∧ s ≠ ""

/-- C10: every 500 response body of any of the three handlers carries a
non-empty error string, and when the generation client throws an error
whose message is absent or empty, the body is the operation's fixed
fallback ("Failed to process image", "Failed to reframe image",
"Failed to remix image" respectively). -/
theorem c10_error_field_nonempty :
    (∀ (env : Env) (req : GenerateBody),
      (generateHandler env req).1.status = 500 →
      ∃ s, (generateHandler env req).1.body = .errJson s ∧ s ≠ "") ∧
    (∀ (env : Env) (req : ReframeBody),
      (reframeHandler env req).1.status = 500 →
      ∃ s, (reframeHandler env req).1.body = .errJson s ∧ s ≠ "") ∧
    (∀ (env : Env) (req : RemixRequest),
      (remixHandler env req).1.status = 500 →
      ∃ s, (remixHandler env req).1.body = .errJson s ∧ s ≠ "") ∧
    (∀ (env : Env) (req : GenerateBody) (e : JsError),
      truthy req.prompt = true →
      env.ideogram .generate
          ⟨none, req.prompt, req.aspect_ratio.getD "1:1"⟩ = .error e →
      (e.message = none ∨ e.message = some "") →
      (generateHandler env req).1 =
        ⟨500, .errJson "Failed to process image"⟩) ∧
    (∀ (env : Env) (req : ReframeBody) (e : JsError),
      truthy req.image_url = true →
      env.ideogram .reframe
          ⟨req.image_url, none, req.aspect_ratio.getD "1:1"⟩ = .error e →
      (e.message = none ∨ e.message = some "") →
      (reframeHandler env req).1 =
        ⟨500, .errJson "Failed to reframe image"⟩) ∧
    (∀ (env : Env) (req : RemixRequest) (e : JsError),
      req.file = none → truthy req.image_url = true →
      truthy req.prompt = true →
      env.ideogram .remix
          ⟨some (req.image_url.getD ""), req.prompt,
           req.aspect_ratio.getD "1:1"⟩ = .error e →
      (e.message = none ∨ e.message = some "") →
      (remixHandler env req).1 =
        ⟨500, .errJson "Failed to remix image"⟩) := by
  refine ⟨?_, ?_, ?_, ?_, ?_, ?_⟩
  · intro env req
    change errNonempty500 (generateHandler env req).1
    unfold generateHandler
    simp only []
    repeat' split
    all_goals first
      | exact fun _ => ⟨_, rfl, errMessageOr_ne_empty _ _ (by decide)⟩
      | exact fun _ => ⟨_, rfl, by decide⟩
      | simp [errNonempty500]
  · intro env req
    change errNonempty500 (reframeHandler env req).1
    unfold reframeHandler
    simp only []
    repeat' split
    all_goals first
      | exact fun _ => ⟨_, rfl, errMessageOr_ne_empty _ _ (by decide)⟩
      | exact fun _ => ⟨_, rfl, by decide⟩
      | simp [errNonempty500]
  · intro env req
    change errNonempty500 (remixHandler env req).1
    unfold remixHandler remixPipeline
    simp only []
    repeat' split
    all_goals first
      | exact fun _ => ⟨_, rfl, errMessageOr_ne_empty _ _ (by decide)⟩
      | exact fun _ => ⟨_, rfl, by decide⟩
      | simp [errNonempty500]
  · intro env req e hp hideo hm
    rcases hm with hm | hm <;>
      simp [generateHandler, hp, hideo, errMessageOr, hm]
  · intro env req e hiu hideo hm
    rcases hm with hm | hm <;>
      simp [reframeHandler, hiu, hideo, errMessageOr, hm]
  · intro env req e hfile hiu hp hideo hm
    rcases hm with hm | hm <;>
      simp [remixHandler, remixPipeline, hfile, hiu, hp, hideo,
        errMessageOr, hm]

/-- C10 witness: a generate run whose stub generation client throws an
error without any message answers 500 with the fixed fallback. -/
theorem c10_witness :
    (generateHandler
        { envHappy with ideogram := fun _ _ => .error ⟨none⟩ }
        { prompt := some "a red fox" }).1 =
      ⟨500, .errJson "Failed to process image"⟩ :=
  c10_error_field_nonempty.2.2.2.1
    { envHappy with ideogram := fun _ _ => .error ⟨none⟩ }
    { prompt := some "a red fox" } ⟨none⟩ rfl rfl (Or.inl rfl)

end Server
